import Mathlib

/-!
Shallow embedding of the HTTP route handlers in `web_app/api/user.py`.

Two complementary models are developed, both translated from the handler
bodies in the source:

* a state-passing model, where the database connectors act on an explicit
  `Store` and each handler additionally reports how many write calls it
  issued to the relevant connector;
* an exception-aware model, where every external collaborator is an oracle
  returning `Except PyExc _`, used to reason about which handlers catch
  collaborator exceptions and which let them propagate.

The connector methods themselves live in `web_app/db/crud.py`, which is not
part of the sources at hand; where their semantics matters it is modelled
from the specification's data model, as flagged on each definition.
-/

/-- A user record as described by the data model: wallet identifier
(the unique key), contract-deployment flag, nullable contract address. -/
structure User where
  wallet_id : String
  is_contract_deployed : Bool
  contract_address : Option String
deriving Repr, DecidableEq

/-- The state owned by the external connectors: the user table and the
list of telegram ids whose notification-allowed flag is set. -/
structure Store where
  users : List User
  telegramAllowed : List Int
deriving Repr, DecidableEq

namespace UserDBConnector

/-- Modelled from the spec: `UserDBConnector.get_user_by_wallet_id` is not
under `src/`.  The wallet identifier is the unique key of the user table,
so the lookup returns the record carrying that wallet id, if any. -/
def get_user_by_wallet_id (s : Store) (w : String) : Option User :=
  s.users.find? (fun u => u.wallet_id == w)

/-- Modelled from the spec: `UserDBConnector.create_user` is not under
`src/`.  "A user is implicitly created on first check call if absent" and
"a contract can only be marked deployed by an explicit update call", so the
fresh record has the deployment flag unset and no contract address. -/
def create_user (s : Store) (w : String) : Store :=
  { s with users := s.users ++
      [{ wallet_id := w, is_contract_deployed := false, contract_address := none }] }

/-- Modelled from the spec: `UserDBConnector.update_user_contract` is not
under `src/`.  It "writes address if user exists": the given user's record
receives the contract address and is marked deployed. -/
def update_user_contract (s : Store) (u : User) (addr : String) : Store :=
  { s with users := s.users.map (fun v =>
      if v.wallet_id == u.wallet_id then
        { v with is_contract_deployed := true, contract_address := some addr }
      else v) }

end UserDBConnector

namespace TelegramUserDBConnector

/-- Modelled from the spec: `TelegramUserDBConnector.allow_notification` is
not under `src/`.  It "enables subscription": the telegram id's
notification-allowed flag is set, and the call reports success. -/
def allow_notification (s : Store) (tid : Int) : Store × Bool :=
  (⟨s.users,
    if tid ∈ s.telegramAllowed then s.telegramAllowed
    else s.telegramAllowed ++ [tid]⟩, true)

end TelegramUserDBConnector

/-- Handler `check_user` (user.py lines 86-105), state-passing model.
Result: (`is_contract_deployed` of the response, store afterwards, number
of `create_user` calls issued). -/
def check_user (s : Store) (w : String) : Bool × Store × Nat :=
  match UserDBConnector.get_user_by_wallet_id s w with
  | some u =>
    if u.is_contract_deployed = false then (false, s, 0) else (true, s, 0)
  | none => (false, UserDBConnector.create_user s w, 1)

/-- Handler `update_user_contract` (user.py lines 115-134), state-passing
model.  Result: (`is_contract_deployed` of the response, store afterwards,
number of `update_user_contract` calls issued to the user connector). -/
def update_user_contract (s : Store) (w addr : String) : Bool × Store × Nat :=
  match UserDBConnector.get_user_by_wallet_id s w with
  | some u => (true, UserDBConnector.update_user_contract s u addr, 1)
  | none => (false, s, 0)

/-- Handler `get_user_contract` (user.py lines 63-76): 404 when the user is
missing or the contract is not deployed, otherwise the user's stored
contract address. -/
def get_user_contract (s : Store) (w : String) : Except (Nat × String) (Option String) :=
  match UserDBConnector.get_user_by_wallet_id s w with
  | none => Except.error (404, "User not found")
  | some u =>
    if u.is_contract_deployed = false then Except.error (404, "Contract not deployed")
    else Except.ok u.contract_address

/-- Handler `subscribe_to_notification` (user.py lines 143-165),
state-passing model.  Result: (response or HTTP error, store afterwards,
number of `allow_notification` calls issued to the telegram connector). -/
def subscribe_to_notification (s : Store) (tid : Int) (w : String) :
    Except (Nat × String) String × Store × Nat :=
  match UserDBConnector.get_user_by_wallet_id s w with
  | none => (Except.error (404, "User not found"), s, 0)
  | some _ =>
    let r := TelegramUserDBConnector.allow_notification s tid
    if r.2 then (Except.ok "User subscribed to notifications successfully", r.1, 1)
    else (Except.error (400, "Failed to subscribe user to notifications"), r.1, 1)

/-- `token in current_prices`: key membership in a mapping, modelled as an
association list. -/
def hasKey (m : List (String × Rat)) (k : String) : Bool :=
  (m.find? (fun p => p.1 == k)).isSome

/-- `current_prices[token]`: the value bound to a key (first binding wins);
only read under a `hasKey` guard in the source. -/
def priceOf (m : List (String × Rat)) (k : String) : Rat :=
  ((m.find? (fun p => p.1 == k)).map (fun p => p.2)).getD 0

/-- One iteration of the conversion loop of `get_stats` (user.py lines
218-234): skip the token when it has no price or "USDC" has no price, add
the amount directly for USDC, otherwise add amount times the token's
price. -/
def convertStep (current_prices : List (String × Rat)) (acc : Rat) (p : String × Rat) : Rat :=
  if hasKey current_prices p.1 = false ∨ hasKey current_prices "USDC" = false then acc
  else if p.1 = "USDC" then acc + p.2
  else acc + p.2 * priceOf current_prices p.1

/-- The whole conversion loop of `get_stats`, starting from `Decimal("0")`. -/
def totalOpenedAmount (token_amounts current_prices : List (String × Rat)) : Rat :=
  token_amounts.foldl (convertStep current_prices) 0

/-- Handler `get_stats` (user.py lines 201-243), parameterised by the
values the collaborators return: the open-position amounts per token, the
current prices, and the user store's unique-user count.  Result:
(total_opened_amount, unique_users). -/
def get_stats (token_amounts current_prices : List (String × Rat))
    (unique_users : Nat) : Rat × Nat :=
  (totalOpenedAmount token_amounts current_prices, unique_users)

/-- From the words of claim C3, not from the code: the sum, over every
token in the open-position amounts, of that token's amount converted to
USDC (the amount taken directly when the token is USDC, otherwise amount
times the token's current price). -/
def claimed_total (token_amounts current_prices : List (String × Rat)) : Rat :=
  (token_amounts.map (fun p =>
    if p.1 = "USDC" then p.2 else p.2 * priceOf current_prices p.1)).sum

/-- A Python exception raised by a collaborator, distinguishing
`ValueError` (caught separately in two handlers) from everything else. -/
inductive PyExc
  | valueError (msg : String)
  | otherExc (msg : String)
deriving Repr, DecidableEq

/-- `str(e)`. -/
def PyExc.message : PyExc → String
  | PyExc.valueError m => m
  | PyExc.otherExc m => m

/-- Outcome of a handler in the exception-aware model: a normal response,
an `HTTPException` raised by the handler itself, or an uncaught
collaborator exception propagating out of the handler. -/
inductive HResult (α : Type)
  | ok (a : α)
  | http (code : Nat) (detail : String)
  | exc (e : PyExc)
deriving Repr, DecidableEq

/-- Handler `has_user_opened_position` (user.py lines 45-51), exception
model: the `position_db.has_opened_position` call sits in a `try` block
whose sole `except` clause catches `ValueError` and raises HTTP 404. -/
def has_user_opened_position_exc (hasOpened : String → Except PyExc Bool)
    (w : String) : HResult Bool :=
  match hasOpened w with
  | Except.ok b => HResult.ok b
  | Except.error (PyExc.valueError m) =>
      HResult.http 404 ("Invalid wallet ID format: " ++ m)
  | Except.error e => HResult.exc e

/-- Handler `get_user_contract`, exception model: no `try` block, so any
collaborator exception propagates. -/
def get_user_contract_exc (getUser : String → Except PyExc (Option User))
    (w : String) : HResult (Option String) :=
  match getUser w with
  | Except.error e => HResult.exc e
  | Except.ok none => HResult.http 404 "User not found"
  | Except.ok (some u) =>
    if u.is_contract_deployed = false then HResult.http 404 "Contract not deployed"
    else HResult.ok u.contract_address

/-- Handler `check_user`, exception model: no `try` block. -/
def check_user_exc (getUser : String → Except PyExc (Option User))
    (createUser : String → Except PyExc Unit) (w : String) : HResult Bool :=
  match getUser w with
  | Except.error e => HResult.exc e
  | Except.ok (some u) =>
    if u.is_contract_deployed = false then HResult.ok false else HResult.ok true
  | Except.ok none =>
    match createUser w with
    | Except.error e => HResult.exc e
    | Except.ok _ => HResult.ok false

/-- Handler `update_user_contract`, exception model: no `try` block. -/
def update_user_contract_exc (getUser : String → Except PyExc (Option User))
    (updateContract : User → String → Except PyExc Unit)
    (w addr : String) : HResult Bool :=
  match getUser w with
  | Except.error e => HResult.exc e
  | Except.ok (some u) =>
    match updateContract u addr with
    | Except.error e => HResult.exc e
    | Except.ok _ => HResult.ok true
  | Except.ok none => HResult.ok false

/-- Handler `subscribe_to_notification`, exception model: no `try` block. -/
def subscribe_to_notification_exc (getUser : String → Except PyExc (Option User))
    (allowNotif : Int → Except PyExc Bool) (tid : Int) (w : String) : HResult String :=
  match getUser w with
  | Except.error e => HResult.exc e
  | Except.ok none => HResult.http 404 "User not found"
  | Except.ok (some _) =>
    match allowNotif tid with
    | Except.error e => HResult.exc e
    | Except.ok true => HResult.ok "User subscribed to notifications successfully"
    | Except.ok false => HResult.http 400 "Failed to subscribe user to notifications"

/-- Handler `get_user_contract_address` (user.py lines 174-191), exception
model: no `try` block. -/
def get_user_contract_address_exc (getAddr : String → Except PyExc (Option String))
    (w : String) : HResult (Option String) :=
  match getAddr w with
  | Except.error e => HResult.exc e
  | Except.ok (some a) => HResult.ok (some a)
  | Except.ok none => HResult.ok none

/-- Handler `get_stats`, exception model: the whole body sits in one `try`
block whose `except Exception` clause raises HTTP 500, so no collaborator
exception escapes. -/
def get_stats_exc (getTotals : Except PyExc (List (String × Rat)))
    (getPrices : Except PyExc (List (String × Rat)))
    (getCount : Except PyExc Nat) : HResult (Rat × Nat) :=
  match getTotals with
  | Except.error e => HResult.http 500 ("Internal server error: " ++ e.message)
  | Except.ok ta =>
    match getPrices with
    | Except.error e => HResult.http 500 ("Internal server error: " ++ e.message)
    | Except.ok cp =>
      match getCount with
      | Except.error e => HResult.http 500 ("Internal server error: " ++ e.message)
      | Except.ok n => HResult.ok (get_stats ta cp n)

/-- Handler `allow_notification` (user.py lines 246-258), exception model:
the telegram call sits in a `try` block; `ValueError` becomes HTTP 404 with
the exception text, any other exception becomes HTTP 500.  The boolean the
telegram connector returns is discarded. -/
def allow_notification_exc (allowNotif : Int → Except PyExc Bool)
    (tid : Int) : HResult String :=
  match allowNotif tid with
  | Except.ok _ => HResult.ok "Notifications enabled successfully"
  | Except.error (PyExc.valueError m) => HResult.http 404 m
  | Except.error (PyExc.otherExc _) => HResult.http 500 "Internal server error"

/-! ### Helper lemmas -/

/-- Looking up the wallet id just created finds the fresh record. -/
theorem get_user_create_self (s : Store) (w : String)
    (h : UserDBConnector.get_user_by_wallet_id s w = none) :
    UserDBConnector.get_user_by_wallet_id (UserDBConnector.create_user s w) w =
      some { wallet_id := w, is_contract_deployed := false, contract_address := none } := by
  unfold UserDBConnector.get_user_by_wallet_id UserDBConnector.create_user at *
  simp [List.find?_append, h]

/-! ### Claims -/

/-- Claim C7: `check_user` is a read-or-create operation returning the
deployment boolean: on a missing wallet id it creates the user (one
`create_user` call, the record then present with the flag unset) and
returns false; on an existing user it creates nothing, leaves the store
unchanged, and returns the user's deployment flag. -/
theorem check_user_read_or_create (s : Store) (w : String) :
    (UserDBConnector.get_user_by_wallet_id s w = none →
      (check_user s w).1 = false ∧ (check_user s w).2.2 = 1 ∧
      UserDBConnector.get_user_by_wallet_id (check_user s w).2.1 w =
        some { wallet_id := w, is_contract_deployed := false, contract_address := none }) ∧
    (∀ u, UserDBConnector.get_user_by_wallet_id s w = some u →
      (check_user s w).2.2 = 0 ∧ (check_user s w).2.1 = s ∧
      ((check_user s w).1 = true ↔ u.is_contract_deployed = true)) := by
  constructor
  · intro h
    have h2 := get_user_create_self s w h
    simp [check_user, h, h2]
  · intro u hu
    cases hd : u.is_contract_deployed <;> simp [check_user, hu, hd]

/-- Witness for C7 at the empty store. -/
theorem check_user_read_or_create_witness :
    (check_user ⟨[], []⟩ "a").1 = false ∧ (check_user ⟨[], []⟩ "a").2.2 = 1 ∧
    UserDBConnector.get_user_by_wallet_id (check_user ⟨[], []⟩ "a").2.1 "a" =
      some { wallet_id := "a", is_contract_deployed := false, contract_address := none } :=
  (check_user_read_or_create ⟨[], []⟩ "a").1 rfl

/-- Claim C1: `check_user` is idempotent on an unseen wallet id: two calls
issue exactly one `create_user` call between them, exactly one record with
that wallet id exists afterwards, and both calls return
`is_contract_deployed = false`. -/
theorem check_user_idempotent (s : Store) (w : String)
    (h : UserDBConnector.get_user_by_wallet_id s w = none) :
    (check_user s w).1 = false ∧
    (check_user (check_user s w).2.1 w).1 = false ∧
    (check_user s w).2.2 + (check_user (check_user s w).2.1 w).2.2 = 1 ∧
    ((check_user (check_user s w).2.1 w).2.1.users.filter
      (fun u => u.wallet_id == w)).length = 1 := by
  have h1 : check_user s w = (false, UserDBConnector.create_user s w, 1) := by
    simp [check_user, h]
  have h2 := get_user_create_self s w h
  have h3 : check_user (UserDBConnector.create_user s w) w =
      (false, UserDBConnector.create_user s w, 0) := by
    simp [check_user, h2]
  have h0 : s.users.filter (fun u => u.wallet_id == w) = [] := by
    rw [List.filter_eq_nil_iff]
    intro a ha
    simpa using List.find?_eq_none.mp h a ha
  have h4 : (UserDBConnector.create_user s w).users.filter (fun u => u.wallet_id == w) =
      [{ wallet_id := w, is_contract_deployed := false, contract_address := none }] := by
    simp [UserDBConnector.create_user, List.filter_append, h0]
  refine ⟨?_, ?_, ?_, ?_⟩ <;> simp [h1, h3, h4]

/-- Witness for C1 at the empty store. -/
theorem check_user_idempotent_witness :
    (check_user ⟨[], []⟩ "b").1 = false ∧
    (check_user (check_user ⟨[], []⟩ "b").2.1 "b").1 = false ∧
    (check_user ⟨[], []⟩ "b").2.2 + (check_user (check_user ⟨[], []⟩ "b").2.1 "b").2.2 = 1 ∧
    ((check_user (check_user ⟨[], []⟩ "b").2.1 "b").2.1.users.filter
      (fun u => u.wallet_id == "b")).length = 1 :=
  check_user_idempotent ⟨[], []⟩ "b" rfl

/-- Claim C2: on a wallet id with no user, `update_user_contract` returns
`is_contract_deployed = false`, leaves the store unchanged, and issues no
`update_user_contract` call to the user connector. -/
theorem update_user_contract_missing_user (s : Store) (w addr : String)
    (h : UserDBConnector.get_user_by_wallet_id s w = none) :
    update_user_contract s w addr = (false, s, 0) := by
  simp [update_user_contract, h]

/-- Witness for C2 at the empty store. -/
theorem update_user_contract_missing_user_witness :
    update_user_contract ⟨[], []⟩ "c" "0xdead" = (false, ⟨[], []⟩, 0) :=
  update_user_contract_missing_user ⟨[], []⟩ "c" "0xdead" rfl

/-- Claim C4: on a wallet id with no user, `subscribe_to_notification`
raises HTTP 404, leaves the store (in particular the telegram store)
unchanged, and issues no `allow_notification` call. -/
theorem subscribe_to_notification_missing_user (s : Store) (tid : Int) (w : String)
    (h : UserDBConnector.get_user_by_wallet_id s w = none) :
    subscribe_to_notification s tid w = (Except.error (404, "User not found"), s, 0) := by
  simp [subscribe_to_notification, h]

/-- Witness for C4 at the empty store. -/
theorem subscribe_to_notification_missing_user_witness :
    subscribe_to_notification ⟨[], []⟩ 7 "d" =
      (Except.error (404, "User not found"), ⟨[], []⟩, 0) :=
  subscribe_to_notification_missing_user ⟨[], []⟩ 7 "d" rfl

/-- Claim C6: with no open positions, `get_stats` returns
`total_opened_amount = 0` and the user store's unique-user count. -/
theorem get_stats_no_open_positions (current_prices : List (String × Rat))
    (unique_users : Nat) :
    get_stats [] current_prices unique_users = (0, unique_users) := rfl

/-- Claim C5: `get_user_contract` raises HTTP 404 exactly when the user is
missing or its contract-deployment flag is unset; otherwise it returns the
user's stored contract address. -/
theorem get_user_contract_404_iff (s : Store) (w : String) :
    ((∃ d, get_user_contract s w = Except.error (404, d)) ↔
      (UserDBConnector.get_user_by_wallet_id s w = none ∨
        ∃ u, UserDBConnector.get_user_by_wallet_id s w = some u ∧
          u.is_contract_deployed = false)) ∧
    (∀ u, UserDBConnector.get_user_by_wallet_id s w = some u →
      u.is_contract_deployed = true →
      get_user_contract s w = Except.ok u.contract_address) := by
  cases hu : UserDBConnector.get_user_by_wallet_id s w with
  | none =>
    refine ⟨⟨fun _ => Or.inl rfl,
      fun _ => ⟨"User not found", by simp [get_user_contract, hu]⟩⟩, ?_⟩
    intro u h
    cases h
  | some u =>
    cases hd : u.is_contract_deployed with
    | false =>
      refine ⟨⟨fun _ => Or.inr ⟨u, rfl, hd⟩,
        fun _ => ⟨"Contract not deployed", by simp [get_user_contract, hu, hd]⟩⟩, ?_⟩
      intro v hv htv
      injection hv with hv
      subst hv
      simp [hd] at htv
    | true =>
      constructor
      · constructor
        · rintro ⟨d, hdd⟩
          simp [get_user_contract, hu, hd] at hdd
        · rintro (hnone | ⟨v, hv, hvf⟩)
          · cases hnone
          · injection hv with hv
            subst hv
            simp [hd] at hvf
      · intro v hv htv
        injection hv with hv
        subst hv
        simp [get_user_contract, hu, hd]

/-- Witness for C5 at a store with one deployed user. -/
theorem get_user_contract_404_iff_witness :
    get_user_contract
      ⟨[{ wallet_id := "a", is_contract_deployed := true, contract_address := some "0xc" }], []⟩
      "a" = Except.ok (some "0xc") :=
  (get_user_contract_404_iff
      ⟨[{ wallet_id := "a", is_contract_deployed := true, contract_address := some "0xc" }], []⟩
      "a").2
    { wallet_id := "a", is_contract_deployed := true, contract_address := some "0xc" } rfl rfl

/-- With no price recorded for "USDC" the conversion loop never adds. -/
theorem foldl_convertStep_no_usdc (cp : List (String × Rat))
    (h : hasKey cp "USDC" = false) :
    ∀ (ta : List (String × Rat)) (acc : Rat), ta.foldl (convertStep cp) acc = acc := by
  intro ta
  induction ta with
  | nil => intro acc; rfl
  | cons p t ih =>
    intro acc
    rw [List.foldl_cons]
    have hstep : convertStep cp acc p = acc := by simp [convertStep, h]
    rw [hstep, ih]

/-- With a price for "USDC", the conversion loop computes the sum, over
the tokens that have a price, of the converted amounts. -/
theorem foldl_convertStep_usdc (cp : List (String × Rat))
    (h : hasKey cp "USDC" = true) :
    ∀ (ta : List (String × Rat)) (acc : Rat),
      ta.foldl (convertStep cp) acc =
        acc + ((ta.filter (fun p => hasKey cp p.1)).map
          (fun p => if p.1 = "USDC" then p.2 else p.2 * priceOf cp p.1)).sum := by
  intro ta
  induction ta with
  | nil => intro acc; simp
  | cons p t ih =>
    intro acc
    rw [List.foldl_cons]
    cases hk : hasKey cp p.1 with
    | false =>
      have hstep : convertStep cp acc p = acc := by simp [convertStep, hk]
      rw [hstep, ih]
      simp [List.filter_cons, hk]
    | true =>
      by_cases hp : p.1 = "USDC"
      · have hstep : convertStep cp acc p = acc + p.2 := by
          simp [convertStep, hk, h, hp]
        rw [hstep, ih, List.filter_cons]
        simp [hk, hp, h]
        ring
      · have hstep : convertStep cp acc p = acc + p.2 * priceOf cp p.1 := by
          simp [convertStep, hk, h, hp]
        rw [hstep, ih, List.filter_cons]
        simp [hk, hp, h]
        ring

/-- Claim C3 as stated fails: with one open position of 5 ETH and a price
mapping holding only ETH at 2 (no "USDC" entry), the claimed sum of
converted amounts is 10 but `get_stats` returns total 0, because the loop
skips every token whenever "USDC" has no price. -/
theorem get_stats_claim_cex :
    get_stats [("ETH", (5 : Rat))] [("ETH", (2 : Rat))] 3 ≠
      (claimed_total [("ETH", (5 : Rat))] [("ETH", (2 : Rat))], 3) := by
  have h1 : totalOpenedAmount [("ETH", (5 : Rat))] [("ETH", (2 : Rat))] = 0 :=
    foldl_convertStep_no_usdc [("ETH", (2 : Rat))] rfl [("ETH", (5 : Rat))] 0
  have h2 : claimed_total [("ETH", (5 : Rat))] [("ETH", (2 : Rat))] = 10 := by
    have hs : ("ETH" : String) ≠ "USDC" := by decide
    norm_num [claimed_total, priceOf, hs]
  have hne : totalOpenedAmount [("ETH", (5 : Rat))] [("ETH", (2 : Rat))] ≠
      claimed_total [("ETH", (5 : Rat))] [("ETH", (2 : Rat))] := by
    rw [h1, h2]
    norm_num
  intro h
  exact hne (congrArg Prod.fst h)

/-- Claim C3 amended: `get_stats` returns `unique_users` as given by the
user store and `total_opened_amount` equal to the sum, over the tokens in
the open-position amounts that have an entry in the current prices, of the
converted amounts (amount directly for USDC, amount times price otherwise)
when "USDC" has a price, and 0 when "USDC" has no price. -/
theorem get_stats_total_amended (token_amounts current_prices : List (String × Rat))
    (unique_users : Nat) :
    get_stats token_amounts current_prices unique_users =
      ((if hasKey current_prices "USDC" = true then
          ((token_amounts.filter (fun p => hasKey current_prices p.1)).map
            (fun p => if p.1 = "USDC" then p.2 else p.2 * priceOf current_prices p.1)).sum
        else 0), unique_users) := by
  cases h : hasKey current_prices "USDC" with
  | false =>
    simp [get_stats, totalOpenedAmount, foldl_convertStep_no_usdc current_prices h, h]
  | true =>
    simp [get_stats, totalOpenedAmount, foldl_convertStep_usdc current_prices h, h]

/-- Claim C9: when "USDC" is absent from the current prices, every token is
skipped and `get_stats` returns total 0, whatever the amounts and the other
prices. -/
theorem get_stats_usdc_price_missing (token_amounts current_prices : List (String × Rat))
    (unique_users : Nat) (h : hasKey current_prices "USDC" = false) :
    get_stats token_amounts current_prices unique_users = (0, unique_users) := by
  simp [get_stats, totalOpenedAmount, foldl_convertStep_no_usdc current_prices h]

/-- Witness for C9: a token that does have a price is still skipped. -/
theorem get_stats_usdc_price_missing_witness :
    get_stats [("ETH", (5 : Rat))] [("ETH", (2 : Rat))] 7 = (0, 7) :=
  get_stats_usdc_price_missing [("ETH", (5 : Rat))] [("ETH", (2 : Rat))] 7 rfl

/-- Claim C10: `allow_notification` returns the success message whenever
the telegram call returns without raising, its boolean discarded, while
`subscribe_to_notification` raises HTTP 400 when the same call returns
false. -/
theorem allow_notification_ignores_returned_boolean :
    (∀ (allowNotif : Int → Except PyExc Bool) (tid : Int) (b : Bool),
      allowNotif tid = Except.ok b →
      allow_notification_exc allowNotif tid =
        HResult.ok "Notifications enabled successfully") ∧
    (∀ (getUser : String → Except PyExc (Option User))
      (allowNotif : Int → Except PyExc Bool) (tid : Int) (w : String) (u : User),
      getUser w = Except.ok (some u) → allowNotif tid = Except.ok false →
      subscribe_to_notification_exc getUser allowNotif tid w =
        HResult.http 400 "Failed to subscribe user to notifications") := by
  constructor
  · intro allowNotif tid b hb
    simp [allow_notification_exc, hb]
  · intro getUser allowNotif tid w u hu hb
    simp [subscribe_to_notification_exc, hu, hb]

/-- Witness for C10: the telegram call returns false in both handlers. -/
theorem allow_notification_ignores_returned_boolean_witness :
    allow_notification_exc (fun _ => Except.ok false) 5 =
      HResult.ok "Notifications enabled successfully" ∧
    subscribe_to_notification_exc
      (fun _ => Except.ok (some ⟨"a", false, none⟩)) (fun _ => Except.ok false) 5 "a" =
      HResult.http 400 "Failed to subscribe user to notifications" :=
  ⟨allow_notification_ignores_returned_boolean.1 (fun _ => Except.ok false) 5 false rfl,
   allow_notification_ignores_returned_boolean.2
     (fun _ => Except.ok (some ⟨"a", false, none⟩)) (fun _ => Except.ok false) 5 "a"
     ⟨"a", false, none⟩ rfl rfl⟩

/-- Claim C8 as stated fails: `has_user_opened_position` also catches a
collaborator exception — a ValueError from the position store — and
translates it to HTTP 404 instead of letting it propagate. -/
theorem has_user_opened_position_catches_value_error :
    has_user_opened_position_exc (fun _ => Except.error (PyExc.valueError "bad")) "0x1" =
      HResult.http 404 ("Invalid wallet ID format: " ++ "bad") ∧
    has_user_opened_position_exc (fun _ => Except.error (PyExc.valueError "bad")) "0x1" ≠
      HResult.exc (PyExc.valueError "bad") := by
  constructor
  · rfl
  · decide

/-- Claim C8 amended: collaborator exceptions are caught and translated to
HTTP status codes at the single outer level of `get_stats` and
`allow_notification` (which therefore never let an exception escape), and
additionally by `has_user_opened_position`, which catches ValueError from
the position store and translates it to HTTP 404 while letting every other
exception propagate; every other handler propagates every collaborator
exception uncaught. -/
theorem collaborator_exception_handling :
    (∀ (getUser : String → Except PyExc (Option User)) (w : String) (e : PyExc),
      getUser w = Except.error e → get_user_contract_exc getUser w = HResult.exc e) ∧
    (∀ (getUser : String → Except PyExc (Option User))
      (createUser : String → Except PyExc Unit) (w : String) (e : PyExc),
      getUser w = Except.error e → check_user_exc getUser createUser w = HResult.exc e) ∧
    (∀ (getUser : String → Except PyExc (Option User))
      (createUser : String → Except PyExc Unit) (w : String) (e : PyExc),
      getUser w = Except.ok none → createUser w = Except.error e →
      check_user_exc getUser createUser w = HResult.exc e) ∧
    (∀ (getUser : String → Except PyExc (Option User))
      (updateContract : User → String → Except PyExc Unit) (w addr : String) (e : PyExc),
      getUser w = Except.error e →
      update_user_contract_exc getUser updateContract w addr = HResult.exc e) ∧
    (∀ (getUser : String → Except PyExc (Option User))
      (updateContract : User → String → Except PyExc Unit) (w addr : String)
      (u : User) (e : PyExc),
      getUser w = Except.ok (some u) → updateContract u addr = Except.error e →
      update_user_contract_exc getUser updateContract w addr = HResult.exc e) ∧
    (∀ (getUser : String → Except PyExc (Option User))
      (allowNotif : Int → Except PyExc Bool) (tid : Int) (w : String) (e : PyExc),
      getUser w = Except.error e →
      subscribe_to_notification_exc getUser allowNotif tid w = HResult.exc e) ∧
    (∀ (getUser : String → Except PyExc (Option User))
      (allowNotif : Int → Except PyExc Bool) (tid : Int) (w : String) (u : User) (e : PyExc),
      getUser w = Except.ok (some u) → allowNotif tid = Except.error e →
      subscribe_to_notification_exc getUser allowNotif tid w = HResult.exc e) ∧
    (∀ (getAddr : String → Except PyExc (Option String)) (w : String) (e : PyExc),
      getAddr w = Except.error e → get_user_contract_address_exc getAddr w = HResult.exc e) ∧
    (∀ (hasOpened : String → Except PyExc Bool) (w : String) (m : String),
      hasOpened w = Except.error (PyExc.valueError m) →
      has_user_opened_position_exc hasOpened w =
        HResult.http 404 ("Invalid wallet ID format: " ++ m)) ∧
    (∀ (hasOpened : String → Except PyExc Bool) (w : String) (m : String),
      hasOpened w = Except.error (PyExc.otherExc m) →
      has_user_opened_position_exc hasOpened w = HResult.exc (PyExc.otherExc m)) ∧
    (∀ (getTotals getPrices : Except PyExc (List (String × Rat)))
      (getCount : Except PyExc Nat) (e : PyExc),
      get_stats_exc getTotals getPrices getCount ≠ HResult.exc e) ∧
    (∀ (allowNotif : Int → Except PyExc Bool) (tid : Int) (e : PyExc),
      allow_notification_exc allowNotif tid ≠ HResult.exc e) := by
  refine ⟨?_, ?_, ?_, ?_, ?_, ?_, ?_, ?_, ?_, ?_, ?_, ?_⟩
  · intro getUser w e h
    simp [get_user_contract_exc, h]
  · intro getUser createUser w e h
    simp [check_user_exc, h]
  · intro getUser createUser w e h hc
    simp [check_user_exc, h, hc]
  · intro getUser updateContract w addr e h
    simp [update_user_contract_exc, h]
  · intro getUser updateContract w addr u e h hc
    simp [update_user_contract_exc, h, hc]
  · intro getUser allowNotif tid w e h
    simp [subscribe_to_notification_exc, h]
  · intro getUser allowNotif tid w u e h hc
    simp [subscribe_to_notification_exc, h, hc]
  · intro getAddr w e h
    simp [get_user_contract_address_exc, h]
  · intro hasOpened w m h
    simp [has_user_opened_position_exc, h]
  · intro hasOpened w m h
    simp [has_user_opened_position_exc, h]
  · intro getTotals getPrices getCount e
    cases getTotals <;> cases getPrices <;> cases getCount <;> simp [get_stats_exc]
  · intro allowNotif tid e
    cases h : allowNotif tid with
    | ok b => simp [allow_notification_exc, h]
    | error e2 => cases e2 <;> simp [allow_notification_exc, h]

/-- Witness for C8: a failing user lookup propagates out of
`get_user_contract`, while `allow_notification` never propagates. -/
theorem collaborator_exception_handling_witness :
    get_user_contract_exc (fun _ => Except.error (PyExc.otherExc "down")) "0x2" =
      HResult.exc (PyExc.otherExc "down") ∧
    allow_notification_exc (fun _ => Except.error (PyExc.otherExc "down")) 9 ≠
      HResult.exc (PyExc.otherExc "down") :=
  ⟨collaborator_exception_handling.1
      (fun _ => Except.error (PyExc.otherExc "down")) "0x2" (PyExc.otherExc "down") rfl,
   collaborator_exception_handling.2.2.2.2.2.2.2.2.2.2.2
      (fun _ => Except.error (PyExc.otherExc "down")) 9 (PyExc.otherExc "down")⟩
